import Mathlib

/-!
Shallow embedding of `cmd/nats-basic/natsPubSub.go`, a single-file NATS
pub/sub CLI client.  The program parses four flags, validates them, connects
to a broker, and dispatches to a publish-once or a subscribe-and-wait branch.

The external NATS client library is modelled by an environment of boolean
outcomes (does connect / publish / flush / subscribe / drain / unsubscribe
succeed?).  A run of the program is a trace of observable events together
with the process exit code and the URL handed to the connect call, if any.

Go semantics that matter here and are reflected faithfully:
  - `log.Fatalf` prints via the logger and then calls `os.Exit(1)`,
    which terminates the process WITHOUT running deferred functions;
  - the logger `l` is created with `log.New(os.Stdout, ...)`, so every
    `l.Fatalf` / `l.Printf` diagnostic goes to standard output;
  - validation errors use `fmt.Fprintln(os.Stderr, ...)` followed by
    `flag.Usage()` (which writes to standard error) and `os.Exit(1)`;
  - `defer nc.Close()` in `main` runs only when `main` returns normally.
-/

namespace NatsBasic

/-- The two operating modes, `modePub` and `modeSub` constants of the source. -/
def modePub : String := "pub"

def modeSub : String := "sub"

/-- The resolved CLI flag values after `flag.Parse()`:
`-mode`, `-subject`, `-msg`, `-url` (all default to `""` except `-url`,
whose default is `nats.DefaultURL`). -/
structure Flags where
  mode : String
  subject : String
  msg : String
  url : String
  deriving Repr, DecidableEq

/-- Default URL `nats.DefaultURL = nats://127.0.0.1:4222`. -/
def defaultURL : String := "nats://127.0.0.1:4222"

/-- Outcomes of the calls into the external NATS client library during one
run: whether each of `nats.Connect`, `nc.Publish`, `nc.Flush`,
`nc.Subscribe`, `nc.Drain` and `sub.Unsubscribe` returns a nil error. -/
structure Env where
  connectOk : Bool
  publishOk : Bool
  flushOk : Bool
  subscribeOk : Bool
  drainOk : Bool
  unsubscribeOk : Bool
  deriving Repr, DecidableEq

/-- Observable events of a run, in program order. -/
inductive Ev where
  /-- a validation diagnostic written to standard error (`fmt.Fprintln(os.Stderr, ...)`) -/
  | stderrDiag
  /-- usage text printed by `flag.Usage()` (standard error) -/
  | usagePrinted
  /-- the `nats.Connect(*natsURL, ...)` call is made -/
  | connectAttempt
  /-- `nats.Connect` returned without error: the connection is established -/
  | connEstablished
  /-- an `l.Fatalf` diagnostic: written to standard output (the logger wraps `os.Stdout`),
      immediately followed by `os.Exit(1)` which skips deferred calls -/
  | fatalLogStdout
  /-- the `publish` function is entered (its opening `l.Printf`) -/
  | pubBranch
  /-- the `nc.Publish(subject, []byte(msg))` call is made -/
  | pubAttempt
  /-- the `nc.Flush()` call is made -/
  | flushAttempt
  /-- the `subscribe` function is entered (its opening `l.Printf`) -/
  | subBranch
  /-- the `nc.Subscribe(subject, cb)` call is made -/
  | subAttempt
  /-- `nc.Subscribe` returned without error: the subscription is registered -/
  | subscribed
  /-- the main goroutine blocks on `<-sigCh` and a SIGINT/SIGTERM arrives -/
  | signalWait
  /-- the `nc.Drain()` call is made -/
  | drainAttempt
  /-- a drain error was logged (`l.Printf`, non-fatal) -/
  | drainErrLogged
  /-- the deferred `sub.Unsubscribe()` call is made -/
  | unsubAttempt
  /-- an unsubscribe error was logged (`l.Printf`, non-fatal) -/
  | unsubErrLogged
  /-- the deferred `nc.Close()` in `main` runs -/
  | closeConn
  deriving Repr, DecidableEq

/-- The outcome of a run: the event trace, the process exit code, and the
URL string handed to `nats.Connect` (`none` when connect was never reached). -/
structure RunResult where
  trace : List Ev
  exitCode : Nat
  connectUrl : Option String
  deriving Repr, DecidableEq

/-- The `publish` function (natsPubSub.go lines 128-146).  Returns the events
it emits and `some code` when it terminated the process via `l.Fatalf`
(`os.Exit`, skipping deferred calls), `none` when it returned normally. -/
def publish (env : Env) : List Ev × Option Nat :=
  if env.publishOk then
    if env.flushOk then
      ([Ev.pubBranch, Ev.pubAttempt, Ev.flushAttempt], none)
    else
      ([Ev.pubBranch, Ev.pubAttempt, Ev.flushAttempt, Ev.fatalLogStdout], some 1)
  else
    ([Ev.pubBranch, Ev.pubAttempt, Ev.fatalLogStdout], some 1)

/-- The `subscribe` function (natsPubSub.go lines 165-201).  On successful
registration it blocks for a signal, drains (logging a drain error without
escalating), and on return its deferred `sub.Unsubscribe()` runs (logging an
unsubscribe error without escalating).  On registration failure `l.Fatalf`
exits the process before the deferred unsubscribe is even registered. -/
def subscribe (env : Env) : List Ev × Option Nat :=
  if env.subscribeOk then
    ([Ev.subBranch, Ev.subAttempt, Ev.subscribed, Ev.signalWait, Ev.drainAttempt]
       ++ (if env.drainOk then [] else [Ev.drainErrLogged])
       ++ [Ev.unsubAttempt]
       ++ (if env.unsubscribeOk then [] else [Ev.unsubErrLogged]), none)
  else
    ([Ev.subBranch, Ev.subAttempt, Ev.fatalLogStdout], some 1)

/-- The `main` function (natsPubSub.go lines 59-115): three sequential
validation checks (each printing to stderr, printing usage, and exiting 1),
then `nats.Connect` (fatal on error), then `defer nc.Close()`, then the
mode switch.  The deferred close runs only when `main` returns normally. -/
def run (f : Flags) (env : Env) : RunResult :=
  if f.mode = "" ∨ f.subject = "" then
    ⟨[Ev.stderrDiag, Ev.usagePrinted], 1, none⟩
  else if f.mode ≠ modePub ∧ f.mode ≠ modeSub then
    ⟨[Ev.stderrDiag, Ev.usagePrinted], 1, none⟩
  else if f.mode = modePub ∧ f.msg = "" then
    ⟨[Ev.stderrDiag, Ev.usagePrinted], 1, none⟩
  else
    if env.connectOk then
      let branch :=
        if f.mode = modePub then publish env
        else if f.mode = modeSub then subscribe env
        else ([], none)
      match branch.2 with
      | some c =>
          ⟨[Ev.connectAttempt, Ev.connEstablished] ++ branch.1, c, some f.url⟩
      | none =>
          ⟨[Ev.connectAttempt, Ev.connEstablished] ++ branch.1 ++ [Ev.closeConn],
            0, some f.url⟩
    else
      ⟨[Ev.connectAttempt, Ev.fatalLogStdout], 1, some f.url⟩

/-- An invocation passes the three validation checks of `main`
(lines 70-86): mode and subject non-empty, mode recognized, and a
non-empty msg whenever mode is `pub`. -/
def passesValidation (f : Flags) : Prop :=
  ¬(f.mode = "" ∨ f.subject = "") ∧
  ¬(f.mode ≠ modePub ∧ f.mode ≠ modeSub) ∧
  ¬(f.mode = modePub ∧ f.msg = "")

instance (f : Flags) : Decidable (passesValidation f) := by
  unfold passesValidation
  infer_instance

/-- Modelled from the spec: subject wildcard matching is implemented by the
external NATS client library, not by code under src/.  Per the spec's
glossary, a subject is a hierarchical dot-delimited topic name; the wildcard
token `*` matches exactly one subject segment and `>` matches one or more
trailing segments; all other tokens match literally.  The pattern and the
subject are compared segment by segment. -/
def tokensMatch : List (List Char) → List (List Char) → Bool
  | [], [] => true
  | [], _ :: _ => false
  | _ :: _, [] => false
  | p :: ps, t :: ts =>
      if p = ['>'] && ps.isEmpty then true
      else if p = ['*'] then tokensMatch ps ts
      else p == t && tokensMatch ps ts

/-- Splits a character sequence into its dot-delimited segments. -/
def splitTokensAux : List Char → List Char → List (List Char)
  | [], acc => [acc.reverse]
  | c :: cs, acc =>
      if c = '.' then acc.reverse :: splitTokensAux cs []
      else splitTokensAux cs (c :: acc)

/-- The dot-delimited segments of a subject string. -/
def splitTokens (s : String) : List (List Char) :=
  splitTokensAux s.data []

/-- Modelled from the spec: whether a subscription pattern matches a
published subject, comparing their dot-delimited segments. -/
def subjectMatches (pattern subject : String) : Bool :=
  tokensMatch (splitTokens pattern) (splitTokens subject)

/-- The UTF-8 encoding of one character, as natural-number byte values. -/
def utf8Bytes (c : Char) : List Nat :=
  let n := c.toNat
  if n < 0x80 then [n]
  else if n < 0x800 then
    [0xC0 + n / 0x40, 0x80 + n % 0x40]
  else if n < 0x10000 then
    [0xE0 + n / 0x1000, 0x80 + n / 0x40 % 0x40, 0x80 + n % 0x40]
  else
    [0xF0 + n / 0x40000, 0x80 + n / 0x1000 % 0x40,
     0x80 + n / 0x40 % 0x40, 0x80 + n % 0x40]

/-- The payload bytes that `publish` sends: the Go conversion `[]byte(msg)`
yields the UTF-8 byte sequence of the `-msg` string. -/
def payloadBytes (msg : String) : List Nat :=
  msg.data.flatMap utf8Bytes

/-- Modelled from the spec: delivery by the external broker.  For one
subscription registered on `pattern`, a single publish of `payload` to
`subj` delivers exactly the messages in the returned list to that
subscription's callback — one message carrying the published subject and
the identical payload bytes when the pattern matches, none otherwise. -/
def deliveries (pattern subj : String) (payload : List Nat) :
    List (String × List Nat) :=
  if subjectMatches pattern subj then [(subj, payload)] else []

/-- States of the spec's subscribe-mode state machine. -/
inductive SMState where
  | Idle
  | Connected
  | Subscribed
  | Draining
  | Closed
  deriving Repr, DecidableEq

/-- The state entered at each trace event, if any: connection established
enters `Connected`, subscription registered enters `Subscribed`, the drain
call enters `Draining`, and the connection close enters `Closed`. -/
def stateOf : Ev → Option SMState
  | Ev.connEstablished => some SMState.Connected
  | Ev.subscribed => some SMState.Subscribed
  | Ev.drainAttempt => some SMState.Draining
  | Ev.closeConn => some SMState.Closed
  | _ => none

/-- The sequence of state-machine states visited by a run, starting Idle. -/
def statesVisited (f : Flags) (env : Env) : List SMState :=
  SMState.Idle :: (run f env).trace.filterMap stateOf

/-- Claim C1, counterexample: a valid publish invocation whose `nc.Publish`
call fails.  The connection is established, yet `l.Fatalf` calls `os.Exit(1)`
without running the deferred `nc.Close()`, so the process terminates with the
connection never released. -/
theorem C1_counterexample :
    Ev.connEstablished ∈
      (run ⟨"pub", "greetings", "hello", defaultURL⟩
        ⟨true, false, true, true, true, true⟩).trace ∧
    Ev.closeConn ∉
      (run ⟨"pub", "greetings", "hello", defaultURL⟩
        ⟨true, false, true, true, true, true⟩).trace ∧
    (run ⟨"pub", "greetings", "hello", defaultURL⟩
        ⟨true, false, true, true, true, true⟩).exitCode = 1 := by
  decide

/-- Claim C1 (amended): the connection is released exactly on the
normal-termination paths: `nc.Close` runs iff the process exits 0 (and on
those paths the connection was indeed established); on publish, flush and
subscribe failures after establishment, `l.Fatalf` exits without running the
deferred close. -/
theorem C1_close_iff_normal_exit (f : Flags) (env : Env) :
    (Ev.closeConn ∈ (run f env).trace ↔ (run f env).exitCode = 0) ∧
    ((run f env).exitCode = 0 → Ev.connEstablished ∈ (run f env).trace) := by
  unfold run publish subscribe
  split_ifs <;> simp_all

theorem C1_witness :
    (Ev.closeConn ∈ (run ⟨"sub", "s5", "", defaultURL⟩
        ⟨true, true, true, true, true, true⟩).trace ↔
     (run ⟨"sub", "s5", "", defaultURL⟩
        ⟨true, true, true, true, true, true⟩).exitCode = 0) ∧
    ((run ⟨"sub", "s5", "", defaultURL⟩
        ⟨true, true, true, true, true, true⟩).exitCode = 0 →
      Ev.connEstablished ∈ (run ⟨"sub", "s5", "", defaultURL⟩
        ⟨true, true, true, true, true, true⟩).trace) :=
  C1_close_iff_normal_exit _ _

/-- Claim C2: when `-mode` or `-subject` is empty, the process exits with
code 1 and the connect call is never reached. -/
theorem C2_validation_blocks_connect (f : Flags) (env : Env)
    (h : f.mode = "" ∨ f.subject = "") :
    (run f env).exitCode = 1 ∧ Ev.connectAttempt ∉ (run f env).trace := by
  unfold run
  rw [if_pos h]
  decide

theorem C2_witness :
    (run ⟨"", "greetings", "", defaultURL⟩
      ⟨true, true, true, true, true, true⟩).exitCode = 1 ∧
    Ev.connectAttempt ∉
      (run ⟨"", "greetings", "", defaultURL⟩
        ⟨true, true, true, true, true, true⟩).trace :=
  C2_validation_blocks_connect _ _ (Or.inl rfl)

/-- Claim C3: in pub mode with an empty `-msg`, validation fails — exit code
1 after an error on stderr and usage text — before any connection attempt. -/
theorem C3_pub_empty_msg_blocks_connect (f : Flags) (env : Env)
    (hm : f.mode = modePub) (hmsg : f.msg = "") :
    (run f env).exitCode = 1 ∧
    Ev.stderrDiag ∈ (run f env).trace ∧
    Ev.usagePrinted ∈ (run f env).trace ∧
    Ev.connectAttempt ∉ (run f env).trace := by
  unfold run
  by_cases h1 : f.mode = "" ∨ f.subject = ""
  · rw [if_pos h1]; decide
  · rw [if_neg h1]
    have h2 : ¬(f.mode ≠ modePub ∧ f.mode ≠ modeSub) := fun hc => hc.1 hm
    rw [if_neg h2, if_pos ⟨hm, hmsg⟩]
    decide

theorem C3_witness :
    (run ⟨"pub", "greetings", "", defaultURL⟩
      ⟨true, true, true, true, true, true⟩).exitCode = 1 ∧
    Ev.stderrDiag ∈ (run ⟨"pub", "greetings", "", defaultURL⟩
      ⟨true, true, true, true, true, true⟩).trace ∧
    Ev.usagePrinted ∈ (run ⟨"pub", "greetings", "", defaultURL⟩
      ⟨true, true, true, true, true, true⟩).trace ∧
    Ev.connectAttempt ∉ (run ⟨"pub", "greetings", "", defaultURL⟩
      ⟨true, true, true, true, true, true⟩).trace :=
  C3_pub_empty_msg_blocks_connect _ _ rfl rfl

/-- Claim C4, counterexample: an invocation that passes validation but whose
connect call fails: the process dies in `l.Fatalf` before the mode switch,
so neither the publish branch nor the subscribe branch executes, against the
claim that exactly one executes for every validated invocation. -/
theorem C4_counterexample :
    passesValidation ⟨"pub", "s1", "m1", defaultURL⟩ ∧
    Ev.pubBranch ∉
      (run ⟨"pub", "s1", "m1", defaultURL⟩
        ⟨false, true, true, true, true, true⟩).trace ∧
    Ev.subBranch ∉
      (run ⟨"pub", "s1", "m1", defaultURL⟩
        ⟨false, true, true, true, true, true⟩).trace := by
  decide

/-- Claim C4 (amended): after validation the mode is provably `pub` or
`sub`; the two branches are mutually exclusive in every run, and when the
connection attempt succeeds exactly one of them executes. -/
theorem C4_dispatch_exactly_one (f : Flags) (env : Env)
    (h : passesValidation f) :
    (f.mode = modePub ∨ f.mode = modeSub) ∧
    ¬(Ev.pubBranch ∈ (run f env).trace ∧ Ev.subBranch ∈ (run f env).trace) ∧
    (env.connectOk = true →
      (Ev.pubBranch ∈ (run f env).trace ↔
       Ev.subBranch ∉ (run f env).trace)) := by
  obtain ⟨h1, h2, h3⟩ := h
  have hmode : f.mode = modePub ∨ f.mode = modeSub := by tauto
  refine ⟨hmode, ?_, ?_⟩ <;>
    rcases hmode with hm | hm <;>
      unfold run publish subscribe <;> split_ifs <;> simp_all

theorem C4_witness :
    ((Flags.mk "sub" "greetings" "" defaultURL).mode = modePub ∨
     (Flags.mk "sub" "greetings" "" defaultURL).mode = modeSub) ∧
    ¬(Ev.pubBranch ∈ (run ⟨"sub", "greetings", "", defaultURL⟩
        ⟨true, true, true, true, true, true⟩).trace ∧
      Ev.subBranch ∈ (run ⟨"sub", "greetings", "", defaultURL⟩
        ⟨true, true, true, true, true, true⟩).trace) ∧
    ((⟨true, true, true, true, true, true⟩ : Env).connectOk = true →
      (Ev.pubBranch ∈ (run ⟨"sub", "greetings", "", defaultURL⟩
          ⟨true, true, true, true, true, true⟩).trace ↔
       Ev.subBranch ∉ (run ⟨"sub", "greetings", "", defaultURL⟩
          ⟨true, true, true, true, true, true⟩).trace)) :=
  C4_dispatch_exactly_one _ _ (by decide)

/-- Claim C5, counterexample: a valid publish invocation whose connect call
fails: validation succeeds yet the publish call is attempted zero times, not
exactly once. -/
theorem C5_counterexample :
    passesValidation ⟨"pub", "s2", "m2", defaultURL⟩ ∧
    (run ⟨"pub", "s2", "m2", defaultURL⟩
      ⟨false, true, true, true, true, true⟩).trace.count Ev.pubAttempt = 0 := by
  decide

/-- Claim C5 (amended): for a valid publish invocation whose connection
attempt succeeds, validation passes, the publish call is attempted exactly
once, and on successful exit the whole trace is connect, established,
publish branch, publish, flush, close — flush strictly after the publish and
before the exit. -/
theorem C5_publish_once_then_flush (f : Flags) (env : Env)
    (hm : f.mode = modePub) (hs : f.subject ≠ "") (hmsg : f.msg ≠ "")
    (hc : env.connectOk = true) :
    passesValidation f ∧
    (run f env).trace.count Ev.pubAttempt = 1 ∧
    ((run f env).exitCode = 0 →
      (run f env).trace = [Ev.connectAttempt, Ev.connEstablished, Ev.pubBranch,
        Ev.pubAttempt, Ev.flushAttempt, Ev.closeConn]) := by
  obtain ⟨m, s, g, u⟩ := f
  obtain ⟨c, p, fl, sb, d, un⟩ := env
  simp only at hm hs hmsg hc
  subst hm hc
  refine ⟨⟨?_, ?_, ?_⟩, ?_⟩
  · simp [modePub, hs]
  · simp [modePub]
  · simp [modePub, hmsg]
  · cases p <;> cases fl <;> simp [run, publish, modePub, modeSub, hs, hmsg]

theorem C5_witness :
    passesValidation ⟨"pub", "greetings", "hello", defaultURL⟩ ∧
    (run ⟨"pub", "greetings", "hello", defaultURL⟩
      ⟨true, true, true, true, true, true⟩).trace.count Ev.pubAttempt = 1 ∧
    ((run ⟨"pub", "greetings", "hello", defaultURL⟩
        ⟨true, true, true, true, true, true⟩).exitCode = 0 →
      (run ⟨"pub", "greetings", "hello", defaultURL⟩
        ⟨true, true, true, true, true, true⟩).trace
        = [Ev.connectAttempt, Ev.connEstablished, Ev.pubBranch,
           Ev.pubAttempt, Ev.flushAttempt, Ev.closeConn]) :=
  C5_publish_once_then_flush _ _ rfl (by decide) (by decide) rfl

/-- Claim C7: a drain error during subscribe-mode shutdown is logged and not
escalated: the run still exits 0 and still closes the connection. -/
theorem C7_drain_error_nonfatal (f : Flags) (env : Env)
    (hm : f.mode = modeSub) (hs : f.subject ≠ "")
    (hc : env.connectOk = true) (hsub : env.subscribeOk = true)
    (hd : env.drainOk = false) :
    (run f env).exitCode = 0 ∧
    Ev.drainErrLogged ∈ (run f env).trace ∧
    Ev.closeConn ∈ (run f env).trace := by
  obtain ⟨m, s, g, u⟩ := f
  obtain ⟨c, p, fl, sb, d, un⟩ := env
  simp only at hm hs hc hsub hd
  subst hm hc hsub hd
  cases un <;> simp [run, subscribe, modePub, modeSub, hs]

theorem C7_witness :
    (run ⟨"sub", "greetings", "", defaultURL⟩
      ⟨true, true, true, true, false, true⟩).exitCode = 0 ∧
    Ev.drainErrLogged ∈ (run ⟨"sub", "greetings", "", defaultURL⟩
      ⟨true, true, true, true, false, true⟩).trace ∧
    Ev.closeConn ∈ (run ⟨"sub", "greetings", "", defaultURL⟩
      ⟨true, true, true, true, false, true⟩).trace :=
  C7_drain_error_nonfatal _ _ rfl (by decide) rfl rfl rfl

/-- Claim C9: with one subscription on the wildcard subject events.> , a
publish to events.user.login and a publish to events.order.created each
deliver exactly one message to that subscription, whose payload bytes are
exactly the UTF-8 bytes of the published `-msg` string. -/
theorem C9_wildcard_roundtrip (m1 m2 : String) :
    deliveries "events.>" "events.user.login" (payloadBytes m1)
      = [("events.user.login", payloadBytes m1)] ∧
    deliveries "events.>" "events.order.created" (payloadBytes m2)
      = [("events.order.created", payloadBytes m2)] := by
  have h1 : subjectMatches "events.>" "events.user.login" = true := by decide
  have h2 : subjectMatches "events.>" "events.order.created" = true := by decide
  exact ⟨by simp [deliveries, h1], by simp [deliveries, h2]⟩

theorem C9_witness :
    deliveries "events.>" "events.user.login" (payloadBytes "hello")
      = [("events.user.login", payloadBytes "hello")] ∧
    deliveries "events.>" "events.order.created" (payloadBytes "world")
      = [("events.order.created", payloadBytes "world")] :=
  C9_wildcard_roundtrip "hello" "world"

/-- Claim C6, counterexample: a publish invocation whose `nc.Flush` fails.
The process exits 1, but the diagnostic is printed by the logger — which
wraps `os.Stdout` — so nothing appears on standard error, against the claim
that every failure prints a diagnostic to standard error. -/
theorem C6_counterexample :
    (run ⟨"pub", "s3", "m3", defaultURL⟩
      ⟨true, true, false, true, true, true⟩).exitCode = 1 ∧
    Ev.stderrDiag ∉ (run ⟨"pub", "s3", "m3", defaultURL⟩
      ⟨true, true, false, true, true, true⟩).trace ∧
    Ev.fatalLogStdout ∈ (run ⟨"pub", "s3", "m3", defaultURL⟩
      ⟨true, true, false, true, true, true⟩).trace := by
  decide

/-- Claim C6 (amended): every run exits 0 or 1; it exits 0 iff no failure
diagnostic was printed at all; validation failures print their diagnostic
(plus usage text) to standard error before any connection attempt, while
connection, publish, flush and subscribe failures print theirs via the
logger to standard output. -/
theorem C6_exit_codes_and_diagnostics (f : Flags) (env : Env) :
    ((run f env).exitCode = 0 ∨ (run f env).exitCode = 1) ∧
    ((run f env).exitCode = 0 ↔
      (Ev.stderrDiag ∉ (run f env).trace ∧
       Ev.fatalLogStdout ∉ (run f env).trace)) ∧
    (Ev.stderrDiag ∈ (run f env).trace →
      Ev.usagePrinted ∈ (run f env).trace ∧
      Ev.connectAttempt ∉ (run f env).trace) := by
  unfold run publish subscribe
  split_ifs <;> simp_all

theorem C6_witness :
    ((run ⟨"pub", "s3", "m3", defaultURL⟩
        ⟨true, true, false, true, true, true⟩).exitCode = 0 ∨
     (run ⟨"pub", "s3", "m3", defaultURL⟩
        ⟨true, true, false, true, true, true⟩).exitCode = 1) ∧
    ((run ⟨"pub", "s3", "m3", defaultURL⟩
        ⟨true, true, false, true, true, true⟩).exitCode = 0 ↔
      (Ev.stderrDiag ∉ (run ⟨"pub", "s3", "m3", defaultURL⟩
          ⟨true, true, false, true, true, true⟩).trace ∧
       Ev.fatalLogStdout ∉ (run ⟨"pub", "s3", "m3", defaultURL⟩
          ⟨true, true, false, true, true, true⟩).trace)) ∧
    (Ev.stderrDiag ∈ (run ⟨"pub", "s3", "m3", defaultURL⟩
        ⟨true, true, false, true, true, true⟩).trace →
      Ev.usagePrinted ∈ (run ⟨"pub", "s3", "m3", defaultURL⟩
        ⟨true, true, false, true, true, true⟩).trace ∧
      Ev.connectAttempt ∉ (run ⟨"pub", "s3", "m3", defaultURL⟩
        ⟨true, true, false, true, true, true⟩).trace) :=
  C6_exit_codes_and_diagnostics _ _

/-- Claim C8, counterexample: a validated subscribe invocation whose
`nc.Subscribe` call fails.  The run dies in `l.Fatalf` while merely
Connected: the terminal state Closed is never reached, against the claim
that every subscribe-mode execution reaches Closed exactly once. -/
theorem C8_counterexample :
    passesValidation ⟨"sub", "s4", "", defaultURL⟩ ∧
    SMState.Closed ∉
      statesVisited ⟨"sub", "s4", "", defaultURL⟩
        ⟨true, true, true, false, true, true⟩ := by
  decide

/-- Claim C8 (amended): in subscribe mode no execution visits Subscribed or
Closed more than once, and the success path (connect and subscribe both
succeed) visits exactly Idle, Connected, Subscribed, Draining, Closed in
that order; error paths stop early and never reach Closed. -/
theorem C8_state_machine (f : Flags) (env : Env)
    (hm : f.mode = modeSub) (hs : f.subject ≠ "") :
    (statesVisited f env).count SMState.Subscribed ≤ 1 ∧
    (statesVisited f env).count SMState.Closed ≤ 1 ∧
    (env.connectOk = true → env.subscribeOk = true →
      statesVisited f env = [SMState.Idle, SMState.Connected,
        SMState.Subscribed, SMState.Draining, SMState.Closed]) := by
  obtain ⟨m, s, g, u⟩ := f
  obtain ⟨c, p, fl, sb, d, un⟩ := env
  simp only at hm hs
  subst hm
  cases c <;> cases sb <;> cases d <;> cases un <;>
    simp [statesVisited, run, subscribe, stateOf, modePub, modeSub, hs]

theorem C8_witness :
    (statesVisited ⟨"sub", "greetings", "", defaultURL⟩
      ⟨true, true, true, true, true, true⟩).count SMState.Subscribed ≤ 1 ∧
    (statesVisited ⟨"sub", "greetings", "", defaultURL⟩
      ⟨true, true, true, true, true, true⟩).count SMState.Closed ≤ 1 ∧
    ((⟨true, true, true, true, true, true⟩ : Env).connectOk = true →
     (⟨true, true, true, true, true, true⟩ : Env).subscribeOk = true →
      statesVisited ⟨"sub", "greetings", "", defaultURL⟩
        ⟨true, true, true, true, true, true⟩
        = [SMState.Idle, SMState.Connected, SMState.Subscribed,
           SMState.Draining, SMState.Closed]) :=
  C8_state_machine _ _ rfl (by decide)

/-- Claim C10: the `-url` value is never validated — changing it changes
neither the validation outcome nor the observable trace or exit code of the
run — and whenever the connect call is reached it receives the `-url` value
unchanged. -/
theorem C10_url_not_validated (f : Flags) (env : Env) (u : String) :
    (passesValidation f ↔ passesValidation ⟨f.mode, f.subject, f.msg, u⟩) ∧
    (run f env).trace = (run ⟨f.mode, f.subject, f.msg, u⟩ env).trace ∧
    (run f env).exitCode = (run ⟨f.mode, f.subject, f.msg, u⟩ env).exitCode ∧
    (Ev.connectAttempt ∈ (run f env).trace →
      (run f env).connectUrl = some f.url) := by
  refine ⟨Iff.rfl, ?_, ?_, ?_⟩
  · unfold run
    dsimp only
    split_ifs
    · rfl
    · rfl
    · rfl
    · cases hb : (publish env).2 <;> simp [hb]
    · cases hb : (subscribe env).2 <;> simp [hb]
    · rfl
    · rfl
  · unfold run
    dsimp only
    split_ifs
    · rfl
    · rfl
    · rfl
    · cases hb : (publish env).2 <;> simp [hb]
    · cases hb : (subscribe env).2 <;> simp [hb]
    · rfl
    · rfl
  · unfold run
    split_ifs
    · intro h; simp at h
    · intro h; simp at h
    · intro h; simp at h
    · intro h; cases hb : (publish env).2 <;> simp [hb]
    · intro h; cases hb : (subscribe env).2 <;> simp [hb]
    · intro h; rfl
    · intro h; rfl

theorem C10_witness :
    (passesValidation ⟨"pub", "greetings", "hello", defaultURL⟩ ↔
     passesValidation ⟨(Flags.mk "pub" "greetings" "hello" defaultURL).mode,
       (Flags.mk "pub" "greetings" "hello" defaultURL).subject,
       (Flags.mk "pub" "greetings" "hello" defaultURL).msg, ""⟩) ∧
    (run ⟨"pub", "greetings", "hello", defaultURL⟩
      ⟨true, true, true, true, true, true⟩).trace
      = (run ⟨(Flags.mk "pub" "greetings" "hello" defaultURL).mode,
          (Flags.mk "pub" "greetings" "hello" defaultURL).subject,
          (Flags.mk "pub" "greetings" "hello" defaultURL).msg, ""⟩
          ⟨true, true, true, true, true, true⟩).trace ∧
    (run ⟨"pub", "greetings", "hello", defaultURL⟩
      ⟨true, true, true, true, true, true⟩).exitCode
      = (run ⟨(Flags.mk "pub" "greetings" "hello" defaultURL).mode,
          (Flags.mk "pub" "greetings" "hello" defaultURL).subject,
          (Flags.mk "pub" "greetings" "hello" defaultURL).msg, ""⟩
          ⟨true, true, true, true, true, true⟩).exitCode ∧
    (Ev.connectAttempt ∈ (run ⟨"pub", "greetings", "hello", defaultURL⟩
        ⟨true, true, true, true, true, true⟩).trace →
      (run ⟨"pub", "greetings", "hello", defaultURL⟩
        ⟨true, true, true, true, true, true⟩).connectUrl
        = some (Flags.mk "pub" "greetings" "hello" defaultURL).url) :=
  C10_url_not_validated ⟨"pub", "greetings", "hello", defaultURL⟩
    ⟨true, true, true, true, true, true⟩ ""

end NatsBasic
